import Mathlib

/-!
Shallow embedding of the `up` daemon subsystem: the health check engine
(`up_core/daemon/health_monitor.py`), the security check engine
(`up_core/daemon/security_monitor.py`) and the auto-repair engine
(`up_core/daemon/auto_repair.py`).

Pure string manipulation (Python `in`, `str.replace`, `str.startswith`,
`str.strip`, `str.split`, `os.path.basename`) is embedded over `List Char`.
Numeric measurements that Python holds as floats (percentages, load
averages, timestamps) are embedded as rationals; every comparison the code
performs on them (`>=`, `>` against integer-valued or decimal-literal
thresholds) is exact in both representations.  External observations
(psutil samples, subprocess output, file metadata) are fields of explicit
state records; a sub-check whose sampling can raise carries an `Ok` flag or
an `Option` field standing for the caught-and-logged failure path.
-/

namespace Up

/-- Python `sub in s` on character lists: `pat` occurs somewhere in `s`. -/
def containsSub (pat : List Char) : List Char → Bool
  | [] => pat.isEmpty
  | c :: rest => pat.isPrefixOf (c :: rest) || containsSub pat rest

/-- Fuel-driven worker for `replaceAll`; with `fuel ≥ s.length` the fuel
never runs out, and exhausted fuel returns the input unchanged. -/
def replaceAllFuel (pat repl : List Char) : Nat → List Char → List Char
  | _, [] => []
  | 0, s => s
  | fuel + 1, c :: rest =>
      if pat.isPrefixOf (c :: rest) then
        repl ++ replaceAllFuel pat repl fuel (rest.drop (pat.length - 1))
      else
        c :: replaceAllFuel pat repl fuel rest

/-- Python `s.replace(pat, repl)` on character lists: every non-overlapping
occurrence of `pat`, scanned left to right, is replaced by `repl`.  (For the
empty pattern this differs from Python; the embedding only ever uses
non-empty patterns.) -/
def replaceAll (pat repl s : List Char) : List Char :=
  replaceAllFuel pat repl s.length s

/-- Split a character list at every character satisfying `p`, keeping empty
fields, accumulating the current field in reverse in `acc` (Python
`s.split(sep)` semantics for a one-character separator). -/
def splitFields (p : Char → Bool) : List Char → List Char → List (List Char)
  | [], acc => [acc.reverse]
  | c :: rest, acc =>
      if p c then acc.reverse :: splitFields p rest []
      else splitFields p rest (c :: acc)

/-- Python `s.replace(a, b)` for a single-character pattern. -/
def replaceChar (a b : Char) (s : String) : String :=
  String.mk (s.data.map (fun c => if c = a then b else c))

/-- Python `sub in s` on strings. -/
def pyContains (pat s : String) : Bool :=
  containsSub pat.data s.data

/-- Python `s.startswith(pre)`. -/
def pyStartsWith (s pre : String) : Bool :=
  pre.data.isPrefixOf s.data

/-- Python `s.strip()`: remove leading and trailing whitespace. -/
def pyStrip (s : String) : String :=
  String.mk (((s.data.dropWhile Char.isWhitespace).reverse.dropWhile Char.isWhitespace).reverse)

/-- Python `s.split()` (no argument): split on whitespace runs, dropping
empty fields. -/
def pyWords (s : String) : List String :=
  ((splitFields Char.isWhitespace s.data []).filter (fun w => w ≠ [])).map String.mk

/-- Python `s.split('\n')`. -/
def pySplitNl (s : String) : List String :=
  (splitFields (fun c => c = '\n') s.data []).map String.mk

/-- Python `s.rstrip('%')`: remove trailing `%` characters. -/
def rstripPercentSign (s : String) : String :=
  String.mk ((s.data.reverse.dropWhile (fun c => c = '%')).reverse)

/-- Python `s.lower()` (ASCII-faithful; the embedded watch-lists and
process names are ASCII). -/
def pyLower (s : String) : String :=
  String.mk (s.data.map Char.toLower)

/-- Python `os.path.basename(p)`: the part after the last `/`. -/
def basename (p : String) : String :=
  String.mk ((p.data.reverse.takeWhile (fun c => c ≠ '/')).reverse)

/-- A value stored in an Issue's `data` dictionary.  The two list-valued
entries the source produces are a truncated list of update strings and a
truncated list of zombie `{'pid', 'name'}` records; the latter is embedded
as a pid/name pair list.  (Python rounds the gigabyte figures with
`round(_, 2)` and renders `modified_time` with `time.ctime`; the embedding
stores the rounded rational respectively the raw timestamp, neither of
which any claim inspects.) -/
inductive DVal where
  | str : String → DVal
  | num : ℚ → DVal
  | nat : Nat → DVal
  | strList : List String → DVal
  | pidNameList : List (Nat × String) → DVal
deriving DecidableEq

/-- The Issue record produced by both check engines (a Python dict with
fixed keys in the source). -/
structure Issue where
  id : String
  severity : String
  description : String
  component : String
  data : List (String × DVal)
deriving DecidableEq

/-- The RepairResult record produced by the auto-repair engine. -/
structure RepairResult where
  id : String
  success : Bool
  message : String
deriving DecidableEq

/-- The `id` projection of an issue sequence. -/
def issueIds (l : List Issue) : List String := l.map Issue.id

/-! Health check engine (`up_core/daemon/health_monitor.py`). -/

/-- Threshold constants from the top of `health_monitor.py`. -/
def DISK_USAGE_THRESHOLD : ℚ := 90

def MEMORY_USAGE_THRESHOLD : ℚ := 90

def CPU_USAGE_THRESHOLD : ℚ := 90

def LOAD_THRESHOLD_FACTOR : ℚ := 1.5

def INODE_USAGE_THRESHOLD : Nat := 90

def SWAP_USAGE_THRESHOLD : ℚ := 80

/-- psutil's zombie status constant. -/
def STATUS_ZOMBIE : String := "zombie"

/-- One entry of `psutil.disk_partitions(all=False)` together with the
`psutil.disk_usage(mountpoint)` sample taken for it. -/
structure Partition where
  mountpoint : String
  fstype : String
  percent : ℚ
  total : ℚ
  free : ℚ
deriving DecidableEq

/-- One entry of `psutil.process_iter(['pid', 'name', 'status'])`; `ok`
is false when reading the entry raised `NoSuchProcess`/`AccessDenied`
(the code skips such entries). -/
structure ProcEntry where
  pid : Nat
  name : String
  status : String
  ok : Bool
deriving DecidableEq

/-- The system observations consumed by one `check_health` cycle.  Each
`...Ok : Bool` field is false when the corresponding sampling raised and
the sub-check's `except` branch swallowed the error (the sub-check then
contributes nothing); `Option` fields are `none` when the underlying
command failed or its output could not be obtained. -/
structure HealthState where
  diskOk : Bool
  partitions : List Partition
  memOk : Bool
  memPercent : ℚ
  memTotal : ℚ
  memAvailable : ℚ
  cpuOk : Bool
  cpuCount : Nat
  load1 : ℚ
  load5 : ℚ
  load15 : ℚ
  cpuPercentOk : Bool
  cpuPercent : ℚ
  procOk : Bool
  procs : List ProcEntry
  dfOut : Option String
  swapOk : Bool
  swapTotal : ℚ
  swapPercent : ℚ
  swapUsed : ℚ
  aptOut : Option String

/-- The pseudo-filesystem fragments excluded by substring test on the
mount point in `_check_disk_usage` and `_check_inode_usage`. -/
def pseudoMounts : List String := ["/boot", "/dev", "/proc", "/sys"]

/-- `any(x in mountpoint for x in ['/boot', '/dev', '/proc', '/sys'])`. -/
def isPseudoMount (m : String) : Bool :=
  pseudoMounts.any (fun x => pyContains x m)

/-- Bytes per gigabyte (`1024**3`). -/
def gigabyte : ℚ := 1024 ^ 3

/-- Python `round(x, 2)` (Python ties round to even; the difference is
invisible to every claim, none of which inspects a rounded figure). -/
def round2 (x : ℚ) : ℚ := (round (x * 100) : ℤ) / 100

/-- The issue id `_check_disk_usage` derives from a mount point. -/
def diskIdOf (m : String) : String :=
  "disk_usage_" ++ replaceChar '/' '_' m

/-- `_check_disk_usage`: flag every real, non-pseudo partition whose usage
is at or above 90%, severity high from 95%. -/
def checkDiskUsage (s : HealthState) : List Issue :=
  if s.diskOk then
    s.partitions.flatMap fun p =>
      if p.fstype != "" && !(isPseudoMount p.mountpoint) then
        if p.percent ≥ DISK_USAGE_THRESHOLD then
          [{ id := diskIdOf p.mountpoint,
             severity := if p.percent ≥ 95 then "high" else "medium",
             description := "Disk usage at " ++ toString p.percent ++ "% on " ++ p.mountpoint,
             component := "disk",
             data := [("mountpoint", .str p.mountpoint),
                      ("usage_percent", .num p.percent),
                      ("total_gb", .num (round2 (p.total / gigabyte))),
                      ("free_gb", .num (round2 (p.free / gigabyte)))] }]
        else []
      else []
  else []

/-- `_check_memory_usage`: flag system memory usage at or above 90%,
severity high from 95%. -/
def checkMemoryUsage (s : HealthState) : List Issue :=
  if s.memOk then
    if s.memPercent ≥ MEMORY_USAGE_THRESHOLD then
      [{ id := "high_memory_usage",
         severity := if s.memPercent ≥ 95 then "high" else "medium",
         description := "Memory usage at " ++ toString s.memPercent ++ "%",
         component := "memory",
         data := [("usage_percent", .num s.memPercent),
                  ("total_gb", .num (round2 (s.memTotal / gigabyte))),
                  ("available_gb", .num (round2 (s.memAvailable / gigabyte)))] }]
    else []
  else []

/-- `_check_cpu_load`: the 1-minute load average is compared strictly
against `cpu_count * 1.5` (strictly against `cpu_count * 2.25` for high);
then the instantaneous CPU percentage is compared against the 90/95
thresholds.  `cpuOk` covers `cpu_count`/`getloadavg` sampling,
`cpuPercentOk` the later `cpu_percent(interval=1)` call (an exception
there still returns the load issue already collected). -/
def checkCpuLoad (s : HealthState) : List Issue :=
  if s.cpuOk then
    (if s.load1 > (s.cpuCount : ℚ) * LOAD_THRESHOLD_FACTOR then
      [{ id := "high_cpu_load",
         severity :=
           if s.load1 > (s.cpuCount : ℚ) * LOAD_THRESHOLD_FACTOR * 1.5 then "high" else "medium",
         description := "High CPU load: " ++ toString s.load1 ++
           " (threshold: " ++ toString ((s.cpuCount : ℚ) * LOAD_THRESHOLD_FACTOR) ++ ")",
         component := "cpu",
         data := [("load1", .num s.load1), ("load5", .num s.load5),
                  ("load15", .num s.load15), ("cpu_count", .nat s.cpuCount),
                  ("threshold", .num ((s.cpuCount : ℚ) * LOAD_THRESHOLD_FACTOR))] }]
    else []) ++
    (if s.cpuPercentOk then
      if s.cpuPercent ≥ CPU_USAGE_THRESHOLD then
        [{ id := "high_cpu_usage",
           severity := if s.cpuPercent ≥ 95 then "high" else "medium",
           description := "CPU usage at " ++ toString s.cpuPercent ++ "%",
           component := "cpu",
           data := [("usage_percent", .num s.cpuPercent)] }]
      else []
    else [])
  else []

/-- The zombie records `_check_zombie_processes` collects from the process
iterator (readable entries whose status is `psutil.STATUS_ZOMBIE`). -/
def zombieList (s : HealthState) : List ProcEntry :=
  s.procs.filter (fun p => p.ok && p.status == STATUS_ZOMBIE)

/-- `_check_zombie_processes`: one issue when any zombie exists, severity
medium only above 10. -/
def checkZombieProcesses (s : HealthState) : List Issue :=
  if s.procOk then
    if zombieList s ≠ [] then
      [{ id := "zombie_processes",
         severity := if (zombieList s).length > 10 then "medium" else "low",
         description := "Found " ++ toString (zombieList s).length ++ " zombie processes",
         component := "process",
         data := [("count", .nat (zombieList s).length),
                  ("zombies", .pidNameList (((zombieList s).take 10).map fun z => (z.pid, z.name)))] }]
    else []
  else []

/-- Per-row logic of `_check_inode_usage` on a whitespace-split `df -i`
output row.  Python's `int` raises on a non-numeric field and the row's
`try` swallows it; `String.toNat?` returning `none` models that path. -/
def inodeRowIssues (parts : List String) : List Issue :=
  if parts.length ≥ 5 then
    let filesystem := parts.getD 0 ""
    let inodesUsedPercent := rstripPercentSign (parts.getD 4 "")
    let mountpoint := if parts.length ≥ 6 then parts.getD 5 "" else parts.getD 4 ""
    if isPseudoMount mountpoint then []
    else
      match inodesUsedPercent.toNat? with
      | some inodePercent =>
          if inodePercent ≥ INODE_USAGE_THRESHOLD then
            [{ id := "inode_usage_" ++ replaceChar '/' '_' mountpoint,
               severity := if inodePercent ≥ 95 then "high" else "medium",
               description := "Inode usage at " ++ toString inodePercent ++ "% on " ++ mountpoint,
               component := "disk",
               data := [("mountpoint", .str mountpoint),
                        ("usage_percent", .nat inodePercent),
                        ("filesystem", .str filesystem)] }]
          else []
      | none => []
  else []

/-- `_check_inode_usage`: parse `df -i` output (skip the header line),
flagging non-pseudo mounts at or above 90% inodes, severity high from
95%.  `dfOut = none` is the failed-command or exception path. -/
def checkInodeUsage (s : HealthState) : List Issue :=
  match s.dfOut with
  | none => []
  | some out => ((pySplitNl (pyStrip out)).drop 1).flatMap fun line => inodeRowIssues (pyWords line)

/-- `_check_swap_usage`: only meaningful when swap exists; flag at or above
80%, severity high from 95%. -/
def checkSwapUsage (s : HealthState) : List Issue :=
  if s.swapOk then
    if s.swapTotal > 0 && s.swapPercent ≥ SWAP_USAGE_THRESHOLD then
      [{ id := "high_swap_usage",
         severity := if s.swapPercent ≥ 95 then "high" else "medium",
         description := "Swap usage at " ++ toString s.swapPercent ++ "%",
         component := "memory",
         data := [("usage_percent", .num s.swapPercent),
                  ("total_gb", .num (round2 (s.swapTotal / gigabyte))),
                  ("used_gb", .num (round2 (s.swapUsed / gigabyte)))] }]
    else []
  else []

/-- `_check_system_updates`: a zero-exit `apt list --upgradable` whose
output lacks the `Listing...` marker yields one low-severity issue counting
the (newline-split) output lines. -/
def checkSystemUpdates (s : HealthState) : List Issue :=
  match s.aptOut with
  | none => []
  | some out =>
      if pyContains "Listing..." out then []
      else
        let updates := pySplitNl (pyStrip out)
        if updates ≠ [] then
          [{ id := "system_updates_available",
             severity := "low",
             description := toString updates.length ++ " system updates available",
             component := "system",
             data := [("count", .nat updates.length),
                      ("updates", .strList (updates.take 10))] }]
        else []

/-- `check_health`: the seven sub-checks concatenated in the source's fixed
order.  Each sub-check's internal faults are caught inside it, so the
function is total and never raises to its caller. -/
def check_health (s : HealthState) : List Issue :=
  checkDiskUsage s ++ checkMemoryUsage s ++ checkCpuLoad s ++
    checkZombieProcesses s ++ checkInodeUsage s ++ checkSwapUsage s ++
    checkSystemUpdates s

/-! Security check engine (`up_core/daemon/security_monitor.py`). -/

/-- The system observations consumed by one `check_security` cycle.
`failedLoginCount`/`sudoFailCount` are the integer-parsed outputs of the
`grep ... | wc -l` pipelines (`none` covering a nonzero exit status, an
unparsable count or a raised exception, all of which skip the sub-check);
`listenPorts` holds the digit strings produced by
`re.findall(r':(\d+)\s', ...)` over the `ss -tuln | grep LISTEN` output
when that pipeline exits zero (`ssOk`); `psOut` is the raw
`ps -eo comm` output; `fsExists`/`fsMtime` are `os.path.exists` and
`os.path.getmtime`, and `now` is the `time.time()` reading taken during
the cycle; `sshConfig` is the text of `/etc/ssh/sshd_config` when the file
exists and is readable; `ufwActive` and `iptablesOk` are the zero-exit
statuses of the two firewall probes. -/
structure SecState where
  failedLoginCount : Option Nat
  sudoFailCount : Option Nat
  ssOk : Bool
  listenPorts : List String
  psOut : Option String
  fsExists : String → Bool
  fsMtime : String → ℚ
  now : ℚ
  sshConfig : Option String
  ufwActive : Bool
  iptablesOk : Bool

/-- `_check_failed_logins`: more than 10 failed password lines flag the
issue, more than 50 escalate to high. -/
def checkFailedLogins (s : SecState) : List Issue :=
  match s.failedLoginCount with
  | none => []
  | some count =>
      if count > 10 then
        [{ id := "failed_login_attempts",
           severity := if count > 50 then "high" else "medium",
           description := "Detected " ++ toString count ++ " failed login attempts",
           component := "authentication",
           data := [("count", .nat count)] }]
      else []

/-- `_check_sudo_usage`: more than 5 sudo authentication failures flag the
issue, more than 20 escalate to high. -/
def checkSudoUsage (s : SecState) : List Issue :=
  match s.sudoFailCount with
  | none => []
  | some count =>
      if count > 5 then
        [{ id := "unauthorized_sudo_usage",
           severity := if count > 20 then "high" else "medium",
           description := "Detected " ++ toString count ++ " unauthorized sudo attempts",
           component := "authentication",
           data := [("count", .nat count)] }]
      else []

/-- The fixed allow-list of listening ports (a Python set literal; only
membership is ever used). -/
def allowedPorts : List Nat := [22, 80, 443, 3306, 5432, 8000, 8080]

/-- Python `int(port)` on a regex-matched digit string (`\d+` guarantees
the parse succeeds; the default is unreachable on such inputs). -/
def portNum (port : String) : Nat := port.toNat?.getD 0

/-- `_check_open_ports`: every observed listening port whose number is not
in the allow-list yields a medium issue named after the matched digit
string. -/
def checkOpenPorts (s : SecState) : List Issue :=
  if s.ssOk then
    s.listenPorts.flatMap fun port =>
      if portNum port ∈ allowedPorts then []
      else
        [{ id := "unexpected_open_port_" ++ port,
           severity := "medium",
           description := "Unexpected open port: " ++ port,
           component := "network",
           data := [("port", .nat (portNum port))] }]
  else []

/-- The fixed watch-list of suspicious process names. -/
def suspiciousNames : List String :=
  ["nc", "netcat", "ncat", "nmap", "hydra", "medusa", "wireshark",
   "tcpdump", "metasploit", "backdoor", "rootkit"]

/-- `_check_suspicious_processes`: for each watch-list name (outer loop)
and each running command name (inner loop), a case-insensitive substring
match yields a high issue named after the watch-list entry. -/
def checkSuspiciousProcesses (s : SecState) : List Issue :=
  match s.psOut with
  | none => []
  | some out =>
      let processes := pySplitNl (pyStrip out)
      suspiciousNames.flatMap fun suspicious =>
        processes.flatMap fun process =>
          if pyContains (pyLower suspicious) (pyLower process) then
            [{ id := "suspicious_process_" ++ suspicious,
               severity := "high",
               description := "Suspicious process detected: " ++ process,
               component := "process",
               data := [("process_name", .str process)] }]
          else []

/-- The fixed list of critical system files whose mtimes are probed. -/
def criticalFiles : List String :=
  ["/bin/bash", "/bin/sh", "/bin/ls", "/bin/login", "/bin/su",
   "/usr/bin/sudo", "/etc/passwd", "/etc/shadow", "/etc/ssh/sshd_config"]

/-- Per-file logic of `_check_modified_system_files`: an existing critical
file modified within the last 24 hours (86400 seconds before the cycle's
clock reading) is flagged high. -/
def modifiedFileIssues (s : SecState) (filePath : String) : List Issue :=
  if s.fsExists filePath then
    if s.now - s.fsMtime filePath < 86400 then
      [{ id := "modified_system_file_" ++ basename filePath,
         severity := "high",
         description := "Recently modified system file: " ++ filePath,
         component := "filesystem",
         data := [("file_path", .str filePath),
                  ("modified_time", .num (s.fsMtime filePath))] }]
    else []
  else []

/-- `_check_modified_system_files` over the fixed critical-file list. -/
def checkModifiedSystemFiles (s : SecState) : List Issue :=
  criticalFiles.flatMap (modifiedFileIssues s)

/-- `_check_ssh_config`: substring probes of the sshd configuration text;
root login enabled is high, password authentication enabled is medium. -/
def checkSshConfig (s : SecState) : List Issue :=
  match s.sshConfig with
  | none => []
  | some config =>
      (if pyContains "PermitRootLogin yes" config then
        [{ id := "ssh_root_login_enabled",
           severity := "high",
           description := "SSH root login is enabled",
           component := "ssh",
           data := [("config_file", .str "/etc/ssh/sshd_config")] }]
      else []) ++
      (if pyContains "PasswordAuthentication yes" config then
        [{ id := "ssh_password_auth_enabled",
           severity := "medium",
           description := "SSH password authentication is enabled",
           component := "ssh",
           data := [("config_file", .str "/etc/ssh/sshd_config")] }]
      else [])

/-- `_check_firewall_status`: only when both the ufw probe and the
iptables probe fail is the firewall reported disabled (high). -/
def checkFirewallStatus (s : SecState) : List Issue :=
  if s.ufwActive then []
  else if s.iptablesOk then []
  else
    [{ id := "firewall_disabled",
       severity := "high",
       description := "Firewall appears to be disabled",
       component := "network",
       data := [] }]

/-- `check_security`: the seven sub-checks concatenated in the source's
fixed order; total for the same reason as `check_health`. -/
def check_security (s : SecState) : List Issue :=
  checkFailedLogins s ++ checkSudoUsage s ++ checkOpenPorts s ++
    checkSuspiciousProcesses s ++ checkModifiedSystemFiles s ++
    checkSshConfig s ++ checkFirewallStatus s

/-! Auto-repair engine (`up_core/daemon/auto_repair.py`). -/

/-- Outcomes of the external actions the repair handlers take.  Each
`...Ok : Bool` field is true when the corresponding subprocess pipeline
ran without raising (the handler's `except` branch fires otherwise and
produces a failed result whose message embeds `str(e)`, standing here as
`errStr`).  `cpuProcs`/`memProcs` are the `(pid, percent)` rows parsed
from the `ps aux` output; `inetAtonValid` is the `socket.inet_aton`
validity oracle; `portListener` is the process `(name, pid)` the `lsof`
pipeline finds listening on a port, if any; `pgrepPids` are the pids
`pgrep name` prints. -/
structure RepairEnv where
  diskRepairOk : Bool
  errStr : String
  cpuSampleOk : Bool
  cpuProcs : List (String × ℚ)
  memSampleOk : Bool
  memProcs : List (String × ℚ)
  inetAtonValid : String → Bool
  iptablesAddOk : Bool
  lsofOk : Bool
  portListener : String → Option (String × String)
  aptExists : Bool
  yumExists : Bool
  dnfExists : Bool
  pacmanExists : Bool
  pmRunOk : Bool
  pgrepPids : String → List String

/-- The mount point `_repair_disk_usage` re-derives from an issue id:
strip every occurrence of `disk_usage_`, turn every underscore into a
slash, and prepend a slash when the result is relative. -/
def repairMountOf (issue_id : String) : String :=
  let mountpoint := replaceChar '_' '/' (String.mk (replaceAll "disk_usage_".data [] issue_id.data))
  if pyStartsWith mountpoint "/" then mountpoint else "/" ++ mountpoint

/-- `_repair_disk_usage`: clean caches/logs/temp files for the re-derived
mount (package-cache commands run only for the root filesystem and are the
only ones that can raise, `check=True`). -/
def repairDiskUsage (env : RepairEnv) (issue_id : String) : RepairResult :=
  let mountpoint := repairMountOf issue_id
  if env.diskRepairOk then
    { id := issue_id, success := true,
      message := "Cleaned up disk space on " ++ mountpoint }
  else
    { id := issue_id, success := false,
      message := "Failed to clean up disk space: " ++ env.errStr }

/-- `_repair_cpu_usage`: terminate every sampled process above 90% CPU;
failure when none qualifies. -/
def repairCpuUsage (env : RepairEnv) : RepairResult :=
  if env.cpuSampleOk then
    let highCpu := env.cpuProcs.filter (fun pr => pr.2 > 90)
    if highCpu ≠ [] then
      { id := "cpu_usage_high", success := true,
        message := "Terminated " ++ toString highCpu.length ++ " high CPU processes" }
    else
      { id := "cpu_usage_high", success := false,
        message := "No runaway processes found to terminate" }
  else
    { id := "cpu_usage_high", success := false,
      message := "Failed to repair CPU usage: " ++ env.errStr }

/-- `_repair_memory_usage`: drop caches, terminate every sampled process
above 80% memory; success even when none qualifies (caches dropped). -/
def repairMemoryUsage (env : RepairEnv) : RepairResult :=
  if env.memSampleOk then
    let highMem := env.memProcs.filter (fun pr => pr.2 > 80)
    if highMem ≠ [] then
      { id := "memory_usage_high", success := true,
        message := "Terminated " ++ toString highMem.length ++
          " high memory processes and cleared caches" }
    else
      { id := "memory_usage_high", success := true,
        message := "Cleared system caches" }
  else
    { id := "memory_usage_high", success := false,
      message := "Failed to repair memory usage: " ++ env.errStr }

/-- `_repair_ssh_brute_force`: re-derive the IP from the id, validate it,
then install and persist an iptables deny rule. -/
def repairSshBruteForce (env : RepairEnv) (issue_id : String) : RepairResult :=
  let ip := replaceChar '_' '.' (String.mk (replaceAll "ssh_brute_force_".data [] issue_id.data))
  if !(env.inetAtonValid ip) then
    { id := issue_id, success := false, message := "Invalid IP address: " ++ ip }
  else if env.iptablesAddOk then
    { id := issue_id, success := true, message := "Blocked IP " ++ ip ++ " using iptables" }
  else
    { id := issue_id, success := false, message := "Failed to block IP: " ++ env.errStr }

/-- `_repair_open_port`: find the process listening on the re-derived port
via `lsof` and terminate it. -/
def repairOpenPort (env : RepairEnv) (issue_id : String) : RepairResult :=
  let port := String.mk (replaceAll "unexpected_open_port_".data [] issue_id.data)
  if env.lsofOk then
    match env.portListener port with
    | some (processName, pid) =>
        { id := issue_id, success := true,
          message := "Closed port " ++ port ++ " by terminating process " ++
            processName ++ " (PID " ++ pid ++ ")" }
    | none =>
        { id := issue_id, success := false,
          message := "Could not close port " ++ port ++
            ": no process found or failed to terminate" }
  else
    { id := issue_id, success := false,
      message := "Failed to close port: " ++ env.errStr }

/-- `_repair_security_updates`: run the first detected package manager's
security-upgrade command, in apt/yum/dnf/pacman priority order. -/
def repairSecurityUpdates (env : RepairEnv) : RepairResult :=
  if env.aptExists || env.yumExists || env.dnfExists || env.pacmanExists then
    if env.pmRunOk then
      { id := "security_updates_available", success := true,
        message := "Applied available security updates" }
    else
      { id := "security_updates_available", success := false,
        message := "Failed to apply security updates: " ++ env.errStr }
  else
    { id := "security_updates_available", success := false,
      message := "No supported package manager found" }

/-- `_repair_suspicious_process`: terminate every pid `pgrep` reports for
the re-derived name; failure when it reports none. -/
def repairSuspiciousProcess (env : RepairEnv) (issue_id : String) : RepairResult :=
  let processName := String.mk (replaceAll "suspicious_process_".data [] issue_id.data)
  if env.pgrepPids processName ≠ [] then
    { id := issue_id, success := true,
      message := "Terminated suspicious process " ++ processName }
  else
    { id := issue_id, success := false,
      message := "No suspicious process " ++ processName ++ " found" }

/-- The dispatcher conditions of `repair_issue`, in source order; an id
matching none of them reaches the final `else`. -/
def matchesKnownPattern (issue_id : String) : Bool :=
  pyStartsWith issue_id "disk_usage_" ||
  issue_id == "cpu_usage_high" ||
  issue_id == "memory_usage_high" ||
  pyStartsWith issue_id "ssh_brute_force_" ||
  pyStartsWith issue_id "unexpected_open_port_" ||
  issue_id == "security_updates_available" ||
  pyStartsWith issue_id "suspicious_process_"

/-- `repair_issue`: the stateless prefix/exact-match dispatcher.  Every
handler catches its own exceptions and the dispatcher wraps the whole body
in a further `try`, so the function is total: it always returns a
`RepairResult` and never raises to its caller. -/
def repair_issue (env : RepairEnv) (issue_id : String) : RepairResult :=
  if pyStartsWith issue_id "disk_usage_" then repairDiskUsage env issue_id
  else if issue_id == "cpu_usage_high" then repairCpuUsage env
  else if issue_id == "memory_usage_high" then repairMemoryUsage env
  else if pyStartsWith issue_id "ssh_brute_force_" then repairSshBruteForce env issue_id
  else if pyStartsWith issue_id "unexpected_open_port_" then repairOpenPort env issue_id
  else if issue_id == "security_updates_available" then repairSecurityUpdates env
  else if pyStartsWith issue_id "suspicious_process_" then repairSuspiciousProcess env issue_id
  else
    { id := issue_id, success := false,
      message := "No repair method available for this issue" }

/-- `repair_all`: run both check engines fresh and push every returned
issue through the dispatcher, collecting each result in order.  (The
`check_*` calls and `repair_issue` are total, so the enclosing `try` of
the source never fires and no issue is skipped.) -/
def repair_all (hs : HealthState) (ss : SecState) (env : RepairEnv) : List RepairResult :=
  (check_health hs ++ check_security ss).map fun issue => repair_issue env issue.id

/-! String lemmas. -/

theorem isPrefixOf_self_append (l t : List Char) : l.isPrefixOf (l ++ t) = true := by
  induction l with
  | nil => cases t <;> rfl
  | cons c cs ih => simp [List.isPrefixOf, ih]

/-- Two strings are equal when their character lists are. -/
theorem str_ext {s t : String} (h : s.data = t.data) : s = t :=
  congrArg String.mk h

/-- Appending to a fixed non-prefix of `other` can never produce `other`. -/
theorem append_ne_of_no_pre (pre t other : String)
    (h : pre.data.isPrefixOf other.data = false) : pre ++ t ≠ other := by
  intro he
  have hd : pre.data ++ t.data = other.data := congrArg String.data he
  rw [← hd, isPrefixOf_self_append] at h
  cases h

/-- Strings with a common prefix are equal only when their tails are. -/
theorem str_append_left_cancel {pre a b : String} (h : pre ++ a = pre ++ b) : a = b := by
  have h2 : pre.data ++ a.data = pre.data ++ b.data := congrArg String.data h
  exact str_ext (List.append_cancel_left h2)

theorem containsSub_cons_eq_false {pat : List Char} {c : Char} {rest : List Char}
    (h : containsSub pat (c :: rest) = false) :
    pat.isPrefixOf (c :: rest) = false ∧ containsSub pat rest = false := by
  simpa [containsSub, Bool.or_eq_false_iff] using h

theorem replaceAllFuel_of_not_contains (pat repl : List Char) (fuel : Nat) :
    ∀ s : List Char, containsSub pat s = false → replaceAllFuel pat repl fuel s = s := by
  induction fuel with
  | zero => intro s _; cases s <;> rfl
  | succ n ih =>
      intro s hs
      cases s with
      | nil => rfl
      | cons c rest =>
          obtain ⟨h1, h2⟩ := containsSub_cons_eq_false hs
          simp [replaceAllFuel, h1, ih rest h2]

/-- `replace` leaves a string without any occurrence of the pattern
unchanged. -/
theorem replaceAll_of_not_contains (pat repl s : List Char)
    (h : containsSub pat s = false) : replaceAll pat repl s = s :=
  replaceAllFuel_of_not_contains pat repl s.length s h

theorem replaceAllFuel_congr (pat repl : List Char) (f1 : Nat) :
    ∀ (f2 : Nat) (s : List Char), s.length ≤ f1 → s.length ≤ f2 →
      replaceAllFuel pat repl f1 s = replaceAllFuel pat repl f2 s := by
  induction f1 with
  | zero =>
      intro f2 s h1 _
      have : s = [] := List.eq_nil_of_length_eq_zero (Nat.le_zero.mp h1)
      subst this
      cases f2 <;> rfl
  | succ n ih =>
      intro f2 s h1 h2
      cases s with
      | nil => cases f2 <;> rfl
      | cons c rest =>
          cases f2 with
          | zero => simp at h2
          | succ m =>
              simp only [replaceAllFuel]
              by_cases hp : pat.isPrefixOf (c :: rest) = true
              · simp only [hp, if_true]
                refine congrArg _ (ih _ _ ?_ ?_) <;>
                  · simp only [List.length_drop]
                    simp only [List.length_cons] at h1 h2
                    omega
              · simp only [Bool.not_eq_true] at hp
                simp only [hp, Bool.false_eq_true, if_false]
                refine congrArg _ (ih _ _ ?_ ?_) <;>
                  · simp only [List.length_cons] at h1 h2
                    omega

/-- Stripping the pattern `pat` from `pat ++ t` continues on `t`. -/
theorem replaceAll_strip (pat t : List Char) (hne : pat ≠ []) :
    replaceAll pat [] (pat ++ t) = replaceAll pat [] t := by
  obtain ⟨p, ps, rfl⟩ := List.exists_cons_of_ne_nil hne
  show replaceAllFuel _ _ ((p :: ps ++ t).length) (p :: (ps ++ t)) = _
  have hlen : (p :: ps ++ t).length = (ps.length + t.length) + 1 := by
    simp [List.length_append]
  rw [hlen]
  have hpre : (p :: ps).isPrefixOf (p :: (ps ++ t)) = true := isPrefixOf_self_append _ t
  simp only [replaceAllFuel, hpre, if_true, List.nil_append]
  have hdrop : (ps ++ t).drop ((p :: ps).length - 1) = t := by
    simp [List.drop_left]
  rw [hdrop]
  exact replaceAllFuel_congr _ _ _ _ _ (Nat.le_add_left _ _) le_rfl

/-- `isPrefixOf` is reflected by a map that is injective across the two
lists involved. -/
theorem isPrefixOf_map_eq (f : Char → Char) (p : List Char) :
    ∀ s : List Char, (∀ a ∈ p, ∀ b ∈ s, f a = f b → a = b) →
      (p.map f).isPrefixOf (s.map f) = p.isPrefixOf s := by
  induction p with
  | nil => intro s _; cases s <;> rfl
  | cons a as ih =>
      intro s hinj
      cases s with
      | nil => rfl
      | cons b bs =>
          simp only [List.map_cons, List.isPrefixOf]
          by_cases hab : a = b
          · subst hab
            simp only [beq_self_eq_true, Bool.true_and]
            exact ih bs fun x hx y hy => hinj x (List.mem_cons_of_mem _ hx) y (List.mem_cons_of_mem _ hy)
          · have hfab : f a ≠ f b := fun hf =>
              hab (hinj a (List.mem_cons_self _ _) b (List.mem_cons_self _ _) hf)
            rw [beq_eq_false_iff_ne.mpr hab, beq_eq_false_iff_ne.mpr hfab,
              Bool.false_and, Bool.false_and]

/-- Substring occurrence is reflected by a map that is injective across
the two lists involved. -/
theorem containsSub_map_eq (f : Char → Char) (p : List Char) :
    ∀ s : List Char, (∀ a ∈ p, ∀ b ∈ s, f a = f b → a = b) →
      containsSub (p.map f) (s.map f) = containsSub p s := by
  intro s
  induction s with
  | nil => intro _; cases p <;> rfl
  | cons c rest ih =>
      intro hinj
      simp only [List.map_cons, containsSub]
      rw [show (f c :: rest.map f) = (c :: rest).map f from rfl,
        isPrefixOf_map_eq f p (c :: rest) hinj,
        ih fun x hx y hy => hinj x hx y (List.mem_cons_of_mem _ hy)]

/-- Replacing `/` by `_` and then `_` by `/` restores a string that had no
underscore to begin with. -/
theorem enc_dec_id (l : List Char) (h : '_' ∉ l) :
    (l.map fun c => if c = '/' then '_' else c).map (fun c => if c = '_' then '/' else c) = l := by
  induction l with
  | nil => rfl
  | cons c cs ih =>
      have hc : c ≠ '_' := fun hc => h (hc ▸ List.mem_cons_self _ _)
      have hrest := ih fun hm => h (List.mem_cons_of_mem _ hm)
      by_cases hcs : c = '/'
      · subst hcs; simp [hrest]
      · simp [hcs, hc, hrest]

/-! Shape lemmas: which ids and severities each sub-check can emit. -/

theorem mem_checkDiskUsage {s : HealthState} {i : Issue} (hi : i ∈ checkDiskUsage s) :
    ∃ p ∈ s.partitions, i.id = diskIdOf p.mountpoint ∧
      i.severity = (if p.percent ≥ 95 then "high" else "medium") := by
  unfold checkDiskUsage at hi
  split at hi
  · rw [List.mem_flatMap] at hi
    obtain ⟨p, hp, hipf⟩ := hi
    refine ⟨p, hp, ?_⟩
    split at hipf
    · split at hipf
      · rw [List.mem_singleton] at hipf
        subst hipf
        exact ⟨rfl, rfl⟩
      · simp at hipf
    · simp at hipf
  · simp at hi

theorem checkDiskUsage_mem_of {s : HealthState} {p : Partition} (hp : p ∈ s.partitions)
    (hdisk : s.diskOk = true) (hfs : p.fstype ≠ "")
    (hps : isPseudoMount p.mountpoint = false) (hpct : p.percent ≥ 90) :
    ∃ i ∈ checkDiskUsage s, i.id = diskIdOf p.mountpoint ∧
      i.severity = (if p.percent ≥ 95 then "high" else "medium") := by
  have hmem : ({ id := diskIdOf p.mountpoint,
                 severity := if p.percent ≥ 95 then "high" else "medium",
                 description := "Disk usage at " ++ toString p.percent ++ "% on " ++ p.mountpoint,
                 component := "disk",
                 data := [("mountpoint", .str p.mountpoint),
                          ("usage_percent", .num p.percent),
                          ("total_gb", .num (round2 (p.total / gigabyte))),
                          ("free_gb", .num (round2 (p.free / gigabyte)))] } : Issue) ∈
      checkDiskUsage s := by
    unfold checkDiskUsage
    rw [hdisk, if_pos rfl, List.mem_flatMap]
    refine ⟨p, hp, ?_⟩
    rw [if_pos, if_pos (show p.percent ≥ DISK_USAGE_THRESHOLD from hpct)]
    · exact List.mem_singleton.mpr rfl
    · simp [hps, bne_iff_ne, hfs]
  exact ⟨_, hmem, rfl, rfl⟩

theorem mem_checkMemoryUsage {s : HealthState} {i : Issue} (hi : i ∈ checkMemoryUsage s) :
    i.id = "high_memory_usage" ∧
      i.severity = (if s.memPercent ≥ 95 then "high" else "medium") := by
  unfold checkMemoryUsage at hi
  split at hi
  · split at hi
    · rw [List.mem_singleton] at hi
      subst hi
      exact ⟨rfl, rfl⟩
    · simp at hi
  · simp at hi

theorem mem_checkCpuLoad {s : HealthState} {i : Issue} (hi : i ∈ checkCpuLoad s) :
    (i.id = "high_cpu_load" ∧
      i.severity = (if s.load1 > (s.cpuCount : ℚ) * LOAD_THRESHOLD_FACTOR * 1.5 then "high" else "medium")) ∨
    (i.id = "high_cpu_usage" ∧
      i.severity = (if s.cpuPercent ≥ 95 then "high" else "medium")) := by
  unfold checkCpuLoad at hi
  split at hi
  · rw [List.mem_append] at hi
    rcases hi with hi | hi
    · split at hi
      · rw [List.mem_singleton] at hi
        subst hi
        exact Or.inl ⟨rfl, rfl⟩
      · simp at hi
    · split at hi
      · split at hi
        · rw [List.mem_singleton] at hi
          subst hi
          exact Or.inr ⟨rfl, rfl⟩
        · simp at hi
      · simp at hi
  · simp at hi

theorem mem_checkZombieProcesses {s : HealthState} {i : Issue}
    (hi : i ∈ checkZombieProcesses s) :
    i.id = "zombie_processes" ∧
      i.severity = (if (zombieList s).length > 10 then "medium" else "low") := by
  unfold checkZombieProcesses at hi
  split at hi
  · split at hi
    · rw [List.mem_singleton] at hi
      subst hi
      exact ⟨rfl, rfl⟩
    · simp at hi
  · simp at hi

theorem mem_inodeRowIssues {parts : List String} {i : Issue} (hi : i ∈ inodeRowIssues parts) :
    ∃ m : String, i.id = "inode_usage_" ++ replaceChar '/' '_' m := by
  unfold inodeRowIssues at hi
  repeat' first
    | split at hi
    | dsimp only [] at hi
  all_goals simp only [List.mem_singleton, List.not_mem_nil] at hi
  all_goals first
    | exact hi.elim
    | (subst hi; exact ⟨_, rfl⟩)

theorem mem_checkInodeUsage {s : HealthState} {i : Issue} (hi : i ∈ checkInodeUsage s) :
    ∃ m : String, i.id = "inode_usage_" ++ replaceChar '/' '_' m := by
  unfold checkInodeUsage at hi
  split at hi
  · simp at hi
  · rw [List.mem_flatMap] at hi
    obtain ⟨line, _, hline⟩ := hi
    exact mem_inodeRowIssues hline

theorem mem_checkSwapUsage {s : HealthState} {i : Issue} (hi : i ∈ checkSwapUsage s) :
    i.id = "high_swap_usage" := by
  unfold checkSwapUsage at hi
  split at hi
  · split at hi
    · rw [List.mem_singleton] at hi
      subst hi
      rfl
    · simp at hi
  · simp at hi

theorem mem_checkSystemUpdates {s : HealthState} {i : Issue} (hi : i ∈ checkSystemUpdates s) :
    i.id = "system_updates_available" := by
  unfold checkSystemUpdates at hi
  repeat' first
    | split at hi
    | dsimp only [] at hi
  all_goals simp only [List.mem_singleton, List.not_mem_nil] at hi
  all_goals first
    | exact hi.elim
    | (subst hi; rfl)

theorem mem_checkFailedLogins {s : SecState} {i : Issue} (hi : i ∈ checkFailedLogins s) :
    i.id = "failed_login_attempts" := by
  unfold checkFailedLogins at hi
  repeat' split at hi
  all_goals simp only [List.mem_singleton, List.not_mem_nil] at hi
  all_goals first
    | exact hi.elim
    | (subst hi; rfl)

theorem mem_checkSudoUsage {s : SecState} {i : Issue} (hi : i ∈ checkSudoUsage s) :
    i.id = "unauthorized_sudo_usage" := by
  unfold checkSudoUsage at hi
  repeat' split at hi
  all_goals simp only [List.mem_singleton, List.not_mem_nil] at hi
  all_goals first
    | exact hi.elim
    | (subst hi; rfl)

theorem mem_checkOpenPorts {s : SecState} {i : Issue} (hi : i ∈ checkOpenPorts s) :
    ∃ port ∈ s.listenPorts, portNum port ∉ allowedPorts ∧
      i.id = "unexpected_open_port_" ++ port ∧ i.severity = "medium" := by
  unfold checkOpenPorts at hi
  split at hi
  · rw [List.mem_flatMap] at hi
    obtain ⟨port, hport, hip⟩ := hi
    refine ⟨port, hport, ?_⟩
    split at hip
    · simp at hip
    · rw [List.mem_singleton] at hip
      subst hip
      exact ⟨by assumption, rfl, rfl⟩
  · simp at hi

theorem checkOpenPorts_mem_of {s : SecState} {port : String} (hss : s.ssOk = true)
    (hport : port ∈ s.listenPorts) (hna : portNum port ∉ allowedPorts) :
    ∃ i ∈ checkOpenPorts s, i.id = "unexpected_open_port_" ++ port ∧ i.severity = "medium" := by
  have hmem : ({ id := "unexpected_open_port_" ++ port,
                 severity := "medium",
                 description := "Unexpected open port: " ++ port,
                 component := "network",
                 data := [("port", .nat (portNum port))] } : Issue) ∈ checkOpenPorts s := by
    unfold checkOpenPorts
    rw [hss, if_pos rfl, List.mem_flatMap]
    exact ⟨port, hport, by rw [if_neg hna]; exact List.mem_singleton.mpr rfl⟩
  exact ⟨_, hmem, rfl, rfl⟩

theorem mem_checkSuspiciousProcesses {s : SecState} {i : Issue}
    (hi : i ∈ checkSuspiciousProcesses s) :
    ∃ n ∈ suspiciousNames, i.id = "suspicious_process_" ++ n ∧ i.severity = "high" := by
  unfold checkSuspiciousProcesses at hi
  split at hi
  · simp at hi
  · dsimp only [] at hi
    rw [List.mem_flatMap] at hi
    obtain ⟨n, hn, hi⟩ := hi
    rw [List.mem_flatMap] at hi
    obtain ⟨pr, _, hi⟩ := hi
    refine ⟨n, hn, ?_⟩
    split at hi
    · rw [List.mem_singleton] at hi
      subst hi
      exact ⟨rfl, rfl⟩
    · simp at hi

theorem mem_modifiedFileIssues {s : SecState} {f : String} {i : Issue}
    (hi : i ∈ modifiedFileIssues s f) :
    i.id = "modified_system_file_" ++ basename f ∧ i.severity = "high" := by
  unfold modifiedFileIssues at hi
  repeat' split at hi
  all_goals simp only [List.mem_singleton, List.not_mem_nil] at hi
  all_goals first
    | exact hi.elim
    | (subst hi; exact ⟨rfl, rfl⟩)

theorem mem_checkModifiedSystemFiles {s : SecState} {i : Issue}
    (hi : i ∈ checkModifiedSystemFiles s) :
    ∃ f ∈ criticalFiles, i.id = "modified_system_file_" ++ basename f ∧ i.severity = "high" := by
  unfold checkModifiedSystemFiles at hi
  rw [List.mem_flatMap] at hi
  obtain ⟨f, hf, hi⟩ := hi
  exact ⟨f, hf, mem_modifiedFileIssues hi⟩

theorem mem_checkSshConfig {s : SecState} {i : Issue} (hi : i ∈ checkSshConfig s) :
    (i.id = "ssh_root_login_enabled" ∧ i.severity = "high") ∨
      (i.id = "ssh_password_auth_enabled" ∧ i.severity = "medium") := by
  unfold checkSshConfig at hi
  split at hi
  · simp at hi
  · rw [List.mem_append] at hi
    rcases hi with hi | hi <;> split at hi <;>
      simp only [List.mem_singleton, List.not_mem_nil] at hi
    · subst hi; exact Or.inl ⟨rfl, rfl⟩
    · subst hi; exact Or.inr ⟨rfl, rfl⟩

theorem mem_checkFirewallStatus {s : SecState} {i : Issue} (hi : i ∈ checkFirewallStatus s) :
    i.id = "firewall_disabled" := by
  unfold checkFirewallStatus at hi
  repeat' split at hi
  all_goals simp only [List.mem_singleton, List.not_mem_nil] at hi
  all_goals first
    | exact hi.elim
    | (subst hi; rfl)

/-! Positional membership helpers and id classification over whole cycles. -/

theorem mem_check_health_of_disk {s : HealthState} {i : Issue}
    (hi : i ∈ checkDiskUsage s) : i ∈ check_health s := by
  unfold check_health
  simp [List.mem_append, hi]

theorem mem_check_health_of_mem {s : HealthState} {i : Issue}
    (hi : i ∈ checkMemoryUsage s) : i ∈ check_health s := by
  unfold check_health
  simp [List.mem_append, hi]

theorem mem_check_health_of_cpu {s : HealthState} {i : Issue}
    (hi : i ∈ checkCpuLoad s) : i ∈ check_health s := by
  unfold check_health
  simp [List.mem_append, hi]

theorem mem_check_security_of_ports {s : SecState} {i : Issue}
    (hi : i ∈ checkOpenPorts s) : i ∈ check_security s := by
  unfold check_security
  simp [List.mem_append, hi]

/-- Every issue a `check_health` cycle can return, by id shape. -/
theorem check_health_id_forms {s : HealthState} {i : Issue} (hi : i ∈ check_health s) :
    (∃ p ∈ s.partitions, i.id = diskIdOf p.mountpoint ∧
        i.severity = (if p.percent ≥ 95 then "high" else "medium")) ∨
    (i.id = "high_memory_usage" ∧
        i.severity = (if s.memPercent ≥ 95 then "high" else "medium")) ∨
    i.id = "high_cpu_load" ∨ i.id = "high_cpu_usage" ∨
    (i.id = "zombie_processes" ∧
        i.severity = (if (zombieList s).length > 10 then "medium" else "low")) ∨
    (∃ m : String, i.id = "inode_usage_" ++ replaceChar '/' '_' m) ∨
    i.id = "high_swap_usage" ∨ i.id = "system_updates_available" := by
  unfold check_health at hi
  simp only [List.mem_append] at hi
  rcases hi with ((((((hi | hi) | hi) | hi) | hi) | hi) | hi)
  · exact Or.inl (mem_checkDiskUsage hi)
  · exact Or.inr (Or.inl (mem_checkMemoryUsage hi))
  · rcases mem_checkCpuLoad hi with ⟨h, -⟩ | ⟨h, -⟩
    · exact Or.inr (Or.inr (Or.inl h))
    · exact Or.inr (Or.inr (Or.inr (Or.inl h)))
  · exact Or.inr (Or.inr (Or.inr (Or.inr (Or.inl (mem_checkZombieProcesses hi)))))
  · exact Or.inr (Or.inr (Or.inr (Or.inr (Or.inr (Or.inl (mem_checkInodeUsage hi))))))
  · exact Or.inr (Or.inr (Or.inr (Or.inr (Or.inr (Or.inr (Or.inl (mem_checkSwapUsage hi)))))))
  · exact Or.inr (Or.inr (Or.inr (Or.inr (Or.inr (Or.inr (Or.inr (mem_checkSystemUpdates hi)))))))

/-- Every issue a `check_security` cycle can return, by id shape. -/
theorem check_security_id_forms {s : SecState} {i : Issue} (hi : i ∈ check_security s) :
    i.id = "failed_login_attempts" ∨ i.id = "unauthorized_sudo_usage" ∨
    (∃ port ∈ s.listenPorts, portNum port ∉ allowedPorts ∧
        i.id = "unexpected_open_port_" ++ port ∧ i.severity = "medium") ∨
    (∃ n ∈ suspiciousNames, i.id = "suspicious_process_" ++ n) ∨
    (∃ f ∈ criticalFiles, i.id = "modified_system_file_" ++ basename f) ∨
    (i.id = "ssh_root_login_enabled" ∧ i.severity = "high") ∨
    i.id = "ssh_password_auth_enabled" ∨ i.id = "firewall_disabled" := by
  unfold check_security at hi
  simp only [List.mem_append] at hi
  rcases hi with ((((((hi | hi) | hi) | hi) | hi) | hi) | hi)
  · exact Or.inl (mem_checkFailedLogins hi)
  · exact Or.inr (Or.inl (mem_checkSudoUsage hi))
  · exact Or.inr (Or.inr (Or.inl (mem_checkOpenPorts hi)))
  · obtain ⟨n, hn, h, -⟩ := mem_checkSuspiciousProcesses hi
    exact Or.inr (Or.inr (Or.inr (Or.inl ⟨n, hn, h⟩)))
  · obtain ⟨f, hf, h, -⟩ := mem_checkModifiedSystemFiles hi
    exact Or.inr (Or.inr (Or.inr (Or.inr (Or.inl ⟨f, hf, h⟩))))
  · rcases mem_checkSshConfig hi with h | ⟨h, -⟩
    · exact Or.inr (Or.inr (Or.inr (Or.inr (Or.inr (Or.inl h)))))
    · exact Or.inr (Or.inr (Or.inr (Or.inr (Or.inr (Or.inr (Or.inl h))))))
  · exact Or.inr (Or.inr (Or.inr (Or.inr (Or.inr (Or.inr (Or.inr (mem_checkFirewallStatus hi)))))))

/-- Issues whose ids all differ from `target` contribute a zero count. -/
theorem countP_id_eq_zero {l : List Issue} {target : String}
    (h : ∀ i ∈ l, i.id ≠ target) : l.countP (fun i => i.id == target) = 0 :=
  List.countP_eq_zero.mpr fun i hi => by
    simp only [beq_iff_eq]
    exact h i hi

/-- The dispatcher's final branch, reached exactly by the unmatched ids. -/
theorem repair_issue_eq_no_method (env : RepairEnv) (issue_id : String)
    (h : matchesKnownPattern issue_id = false) :
    repair_issue env issue_id =
      { id := issue_id, success := false,
        message := "No repair method available for this issue" } := by
  unfold matchesKnownPattern at h
  simp only [Bool.or_eq_false_iff] at h
  obtain ⟨⟨⟨⟨⟨⟨h1, h2⟩, h3⟩, h4⟩, h5⟩, h6⟩, h7⟩ := h
  unfold repair_issue
  simp only [h1, h2, h3, h4, h5, h6, h7, Bool.false_eq_true, if_false]

/-! Concrete states and environments used by witnesses and
counterexamples. -/

/-- A healthy baseline observation: nothing to flag. -/
def benignHealth : HealthState :=
  { diskOk := true, partitions := [], memOk := true, memPercent := 40,
    memTotal := 8589934592, memAvailable := 5153960755, cpuOk := true,
    cpuCount := 4, load1 := 1, load5 := 1, load15 := 1, cpuPercentOk := true,
    cpuPercent := 10, procOk := true, procs := [], dfOut := none,
    swapOk := true, swapTotal := 0, swapPercent := 0, swapUsed := 0,
    aptOut := none }

/-- A quiet security baseline observation. -/
def benignSec : SecState :=
  { failedLoginCount := none, sudoFailCount := none, ssOk := true,
    listenPorts := [], psOut := none, fsExists := fun _ => false,
    fsMtime := fun _ => 0, now := 1000000, sshConfig := none,
    ufwActive := true, iptablesOk := true }

/-- A repair environment whose external actions all succeed vacuously. -/
def defaultEnv : RepairEnv :=
  { diskRepairOk := true, errStr := "", cpuSampleOk := true, cpuProcs := [],
    memSampleOk := true, memProcs := [], inetAtonValid := fun _ => true,
    iptablesAddOk := true, lsofOk := true, portListener := fun _ => none,
    aptExists := true, yumExists := false, dnfExists := false,
    pacmanExists := false, pmRunOk := true, pgrepPids := fun _ => [] }

/-- Memory at or above the threshold always yields the memory issue. -/
theorem checkMemoryUsage_mem_of {s : HealthState} (hok : s.memOk = true)
    (hpct : s.memPercent ≥ 90) :
    ∃ i ∈ checkMemoryUsage s, i.id = "high_memory_usage" ∧
      i.severity = (if s.memPercent ≥ 95 then "high" else "medium") := by
  have hmem : ({ id := "high_memory_usage",
                 severity := if s.memPercent ≥ 95 then "high" else "medium",
                 description := "Memory usage at " ++ toString s.memPercent ++ "%",
                 component := "memory",
                 data := [("usage_percent", .num s.memPercent),
                          ("total_gb", .num (round2 (s.memTotal / gigabyte))),
                          ("available_gb", .num (round2 (s.memAvailable / gigabyte)))] } : Issue) ∈
      checkMemoryUsage s := by
    unfold checkMemoryUsage
    rw [hok, if_pos rfl, if_pos (show s.memPercent ≥ MEMORY_USAGE_THRESHOLD from hpct)]
    exact List.mem_singleton.mpr rfl
  exact ⟨_, hmem, rfl, rfl⟩

/-! Claim theorems. -/

/-- C2: the health engine names its memory issue `high_memory_usage` and
its instantaneous-CPU issue `high_cpu_usage`, but the dispatcher only
knows `memory_usage_high` and `cpu_usage_high`; both ids therefore fall
through to the final branch with a failed result, so the auto-repair
engine never remediates the memory/CPU conditions the health engine
detects. -/
theorem health_memory_cpu_ids_unrepairable (env : RepairEnv) (s : HealthState) :
    (∀ i ∈ checkMemoryUsage s, i.id = "high_memory_usage") ∧
    (∀ i ∈ checkCpuLoad s, i.id ≠ "high_cpu_load" → i.id = "high_cpu_usage") ∧
    (∀ i ∈ check_health s, (i.id = "high_memory_usage" ∨ i.id = "high_cpu_usage") →
      repair_issue env i.id =
        { id := i.id, success := false,
          message := "No repair method available for this issue" }) := by
  refine ⟨fun i hi => (mem_checkMemoryUsage hi).1, fun i hi hne => ?_, fun i _ hid => ?_⟩
  · rcases mem_checkCpuLoad hi with ⟨h, -⟩ | ⟨h, -⟩
    · exact absurd h hne
    · exact h
  · rcases hid with h | h <;> rw [h] <;>
      exact repair_issue_eq_no_method env _ (by decide)

/-- State with memory usage at 96%, flagged by the memory sub-check. -/
def mem96Health : HealthState := { benignHealth with memPercent := 96 }

/-- Witness for C2 at a concrete state whose memory sits at 96%. -/
theorem health_memory_cpu_ids_unrepairable_witness :
    repair_issue defaultEnv "high_memory_usage" =
      { id := "high_memory_usage", success := false,
        message := "No repair method available for this issue" } := by
  obtain ⟨i, hi, hid, -⟩ :=
    checkMemoryUsage_mem_of (s := mem96Health) rfl (by norm_num [mem96Health, benignHealth])
  have h := (health_memory_cpu_ids_unrepairable defaultEnv mem96Health).2.2 i
    (mem_check_health_of_mem hi) (Or.inl hid)
  rwa [hid] at h

/-- C3: an issue id matching none of the dispatcher's patterns always
produces `success = false` with the fixed non-empty explanatory message,
and the dispatcher is total (all handler faults are caught), so nothing
is ever raised to the caller. -/
theorem repair_issue_unmatched (env : RepairEnv) (issue_id : String)
    (h : matchesKnownPattern issue_id = false) :
    repair_issue env issue_id =
      { id := issue_id, success := false,
        message := "No repair method available for this issue" } ∧
      "No repair method available for this issue" ≠ "" :=
  ⟨repair_issue_eq_no_method env issue_id h, by decide⟩

/-- Witness for C3 at a concrete unmatched id. -/
theorem repair_issue_unmatched_witness :
    matchesKnownPattern "zombie_processes" = false ∧
      (repair_issue defaultEnv "zombie_processes" =
        { id := "zombie_processes", success := false,
          message := "No repair method available for this issue" } ∧
        "No repair method available for this issue" ≠ "") :=
  ⟨by decide, repair_issue_unmatched defaultEnv "zombie_processes" (by decide)⟩

/-- C4: `repair_all` returns exactly one `RepairResult` per issue of the
freshly run health check plus security check, in order; each position is
the dispatcher's result for that issue, so no failure short-circuits the
remaining repairs. -/
theorem repair_all_one_result_per_issue (hs : HealthState) (ss : SecState) (env : RepairEnv) :
    (repair_all hs ss env).length = (check_health hs).length + (check_security ss).length ∧
    ∀ k : Nat, (repair_all hs ss env)[k]? =
      ((check_health hs ++ check_security ss)[k]?).map fun issue => repair_issue env issue.id := by
  constructor
  · simp [repair_all]
  · intro k
    simp only [repair_all, List.getElem?_map]

/-- A data partition mounted at `/data`, measured 96% full. -/
def dataPartition : Partition :=
  { mountpoint := "/data", fstype := "ext4", percent := 96,
    total := 107374182400, free := 4294967296 }

/-- Health observation whose only partition is `/data` at 96%. -/
def dataHealth : HealthState := { benignHealth with partitions := [dataPartition] }

/-- C1 counterexample: with `/data` at 96%, `check_health` does flag the
mount with severity high, but the generated id is `disk_usage__data`
(`"/data".replace('/', '_')` keeps the leading slash as an underscore);
no issue with the claimed id `disk_usage_data` exists. -/
theorem disk_usage_data_id_counterexample :
    (∃ i ∈ check_health dataHealth, i.id = "disk_usage__data" ∧ i.severity = "high") ∧
      ∀ i ∈ check_health dataHealth, i.id ≠ "disk_usage_data" := by
  constructor
  · obtain ⟨i, hi, hid, hsev⟩ := checkDiskUsage_mem_of (s := dataHealth) (p := dataPartition)
      (List.mem_singleton.mpr rfl) rfl (by decide) (by decide) (by norm_num [dataPartition])
    refine ⟨i, mem_check_health_of_disk hi, ?_, ?_⟩
    · rw [hid]; decide
    · rw [hsev, if_pos]
      norm_num [dataPartition]
  · intro i hi
    rcases check_health_id_forms hi with
      ⟨p, hp, hid, -⟩ | ⟨hid, -⟩ | hid | hid | ⟨hid, -⟩ | ⟨m, hid⟩ | hid | hid
    · have hp' : p = dataPartition := by
        simpa [dataHealth, benignHealth] using hp
      subst hp'
      rw [hid]; decide
    all_goals try (rw [hid]; decide)
    · rw [hid]
      exact append_ne_of_no_pre "inode_usage_" (replaceChar '/' '_' m) _ (by decide)

/-- C1 amended: for a mounted data filesystem at `/data` whose measured
usage is 96%, `check_health` returns an Issue with severity `high` whose
id is `disk_usage__data` — the prefix `disk_usage_` followed by the mount
point with every `/` turned into `_`, so the leading slash contributes a
second underscore (the 90/95 thresholds behave as the claim states). -/
theorem disk_usage_data_issue (s : HealthState) (p : Partition)
    (hp : p ∈ s.partitions) (hdisk : s.diskOk = true) (hmount : p.mountpoint = "/data")
    (hfs : p.fstype ≠ "") (hpct : p.percent = 96) :
    ∃ i ∈ check_health s, i.id = "disk_usage__data" ∧ i.severity = "high" := by
  obtain ⟨i, hi, hid, hsev⟩ := checkDiskUsage_mem_of hp hdisk hfs
    (by rw [hmount]; decide) (by rw [hpct]; norm_num)
  refine ⟨i, mem_check_health_of_disk hi, ?_, ?_⟩
  · rw [hid, hmount]; decide
  · rw [hsev, if_pos]
    rw [hpct]; norm_num

/-- Witness for the amended C1 at the concrete `/data` observation. -/
theorem disk_usage_data_issue_witness :
    ∃ i ∈ check_health dataHealth, i.id = "disk_usage__data" ∧ i.severity = "high" :=
  disk_usage_data_issue dataHealth dataPartition (List.mem_singleton.mpr rfl) rfl rfl
    (by decide) rfl

/-- A `high_cpu_load` issue can only be present when the 1-minute load
strictly exceeds `cpu_count * 1.5`. -/
theorem mem_checkCpuLoad_load {s : HealthState} {i : Issue} (hi : i ∈ checkCpuLoad s)
    (hid : i.id = "high_cpu_load") :
    s.load1 > (s.cpuCount : ℚ) * LOAD_THRESHOLD_FACTOR := by
  unfold checkCpuLoad at hi
  split at hi
  · rw [List.mem_append] at hi
    rcases hi with hi | hi
    · split at hi
      · assumption
      · simp at hi
    · split at hi
      · split at hi
        · rw [List.mem_singleton] at hi
          subst hi
          simp at hid
        · simp at hi
      · simp at hi
  · simp at hi

/-- Two cores with the 1-minute load average exactly at `1.5 * 2 = 3`. -/
def loadHealth : HealthState :=
  { benignHealth with cpuCount := 2, load1 := 3, load5 := 3, load15 := 3 }

/-- C5 counterexample: the code compares the load average strictly
(`load1 > threshold`), so a load exactly equal to `1.5 * cores` satisfies
the claim's `L >= 1.5*n` yet produces no `high_cpu_load` issue at all. -/
theorem cpu_load_boundary_counterexample :
    (3 : ℚ) ≥ 1.5 * 2 ∧ ∀ i ∈ check_health loadHealth, i.id ≠ "high_cpu_load" := by
  constructor
  · norm_num
  · intro i hi hid
    unfold check_health at hi
    simp only [List.mem_append] at hi
    rcases hi with ((((((hi | hi) | hi) | hi) | hi) | hi) | hi)
    · obtain ⟨p, hp, -, -⟩ := mem_checkDiskUsage hi
      simp [loadHealth, benignHealth] at hp
    · exact absurd ((mem_checkMemoryUsage hi).1.symm.trans hid) (by decide)
    · have hl := mem_checkCpuLoad_load hi hid
      norm_num [loadHealth, benignHealth, LOAD_THRESHOLD_FACTOR] at hl
    · exact absurd ((mem_checkZombieProcesses hi).1.symm.trans hid) (by decide)
    · obtain ⟨m, hmid⟩ := mem_checkInodeUsage hi
      exact absurd (hmid.symm.trans hid) (append_ne_of_no_pre "inode_usage_" _ _ (by decide))
    · exact absurd ((mem_checkSwapUsage hi).symm.trans hid) (by decide)
    · exact absurd ((mem_checkSystemUpdates hi).symm.trans hid) (by decide)

/-- C5 amended: `check_health` emits the `high_cpu_load` issue whenever the
1-minute load average strictly exceeds `1.5 * cores`, with severity high
exactly when it also strictly exceeds `2.25 * cores` (so a load exactly at
`1.5 * cores` is unreported and one exactly at `2.25 * cores` is medium). -/
theorem cpu_load_strict_threshold (s : HealthState) (hcpu : s.cpuOk = true)
    (hload : s.load1 > 1.5 * (s.cpuCount : ℚ)) :
    ∃ i ∈ check_health s, i.id = "high_cpu_load" ∧
      i.severity = (if s.load1 > 2.25 * (s.cpuCount : ℚ) then "high" else "medium") := by
  have hthr : (s.cpuCount : ℚ) * LOAD_THRESHOLD_FACTOR = 1.5 * (s.cpuCount : ℚ) := by
    unfold LOAD_THRESHOLD_FACTOR
    ring
  have hthr2 : (s.cpuCount : ℚ) * LOAD_THRESHOLD_FACTOR * 1.5 = 2.25 * (s.cpuCount : ℚ) := by
    unfold LOAD_THRESHOLD_FACTOR
    ring
  have hmem : ({ id := "high_cpu_load",
                 severity :=
                   if s.load1 > (s.cpuCount : ℚ) * LOAD_THRESHOLD_FACTOR * 1.5 then "high"
                   else "medium",
                 description := "High CPU load: " ++ toString s.load1 ++
                   " (threshold: " ++ toString ((s.cpuCount : ℚ) * LOAD_THRESHOLD_FACTOR) ++ ")",
                 component := "cpu",
                 data := [("load1", .num s.load1), ("load5", .num s.load5),
                          ("load15", .num s.load15), ("cpu_count", .nat s.cpuCount),
                          ("threshold", .num ((s.cpuCount : ℚ) * LOAD_THRESHOLD_FACTOR))] } :
        Issue) ∈ checkCpuLoad s := by
    unfold checkCpuLoad
    rw [hcpu, if_pos rfl]
    apply List.mem_append_left
    rw [if_pos]
    · exact List.mem_singleton.mpr rfl
    · rw [hthr]
      exact hload
  refine ⟨_, mem_check_health_of_cpu hmem, rfl, ?_⟩
  rw [show (({ id := "high_cpu_load",
               severity :=
                 if s.load1 > (s.cpuCount : ℚ) * LOAD_THRESHOLD_FACTOR * 1.5 then "high"
                 else "medium",
               description := "High CPU load: " ++ toString s.load1 ++
                 " (threshold: " ++ toString ((s.cpuCount : ℚ) * LOAD_THRESHOLD_FACTOR) ++ ")",
               component := "cpu",
               data := [("load1", .num s.load1), ("load5", .num s.load5),
                        ("load15", .num s.load15), ("cpu_count", .nat s.cpuCount),
                        ("threshold", .num ((s.cpuCount : ℚ) * LOAD_THRESHOLD_FACTOR))] } :
      Issue)).severity =
      (if s.load1 > (s.cpuCount : ℚ) * LOAD_THRESHOLD_FACTOR * 1.5 then "high" else "medium")
    from rfl, hthr2]

/-- Two cores with the 1-minute load average at 4, strictly above 3. -/
def loadHealth4 : HealthState := { benignHealth with cpuCount := 2, load1 := 4 }

/-- Witness for the amended C5 at load 4 on two cores. -/
theorem cpu_load_strict_threshold_witness :
    ∃ i ∈ check_health loadHealth4, i.id = "high_cpu_load" ∧
      i.severity =
        (if loadHealth4.load1 > 2.25 * (loadHealth4.cpuCount : ℚ) then "high" else "medium") :=
  cpu_load_strict_threshold loadHealth4 rfl
    (by show (4 : ℚ) > 1.5 * ((2 : ℕ) : ℚ); norm_num)

/-- C7: an observed listening port is flagged (one medium issue whose id
appends the observed port token) exactly when its number is outside the
fixed allow-list `{22, 80, 443, 3306, 5432, 8000, 8080}`; when every
listening port is allowed, no `unexpected_open_port_*` issue of any kind
is returned. -/
theorem unexpected_open_port_iff (s : SecState) (hss : s.ssOk = true) :
    (∀ port ∈ s.listenPorts,
      ((∃ i ∈ check_security s, i.id = "unexpected_open_port_" ++ port ∧ i.severity = "medium") ↔
        portNum port ∉ allowedPorts)) ∧
    ((∀ port ∈ s.listenPorts, portNum port ∈ allowedPorts) →
      ∀ i ∈ check_security s, ∀ t : String, i.id ≠ "unexpected_open_port_" ++ t) := by
  constructor
  · intro port hport
    constructor
    · rintro ⟨i, hi, hid, -⟩
      rcases check_security_id_forms hi with
        h | h | ⟨q, hq, hqna, hqid, -⟩ | ⟨n, hn, hnid⟩ | ⟨f, hf, hfid⟩ | ⟨h, -⟩ | h | h
      · exact absurd (hid.symm.trans h) (append_ne_of_no_pre _ _ _ (by decide))
      · exact absurd (hid.symm.trans h) (append_ne_of_no_pre _ _ _ (by decide))
      · rw [str_append_left_cancel (hid.symm.trans hqid)]
        exact hqna
      · exact absurd (hid.symm.trans hnid) (append_ne_of_no_pre _ _ _ rfl)
      · exact absurd (hid.symm.trans hfid) (append_ne_of_no_pre _ _ _ rfl)
      · exact absurd (hid.symm.trans h) (append_ne_of_no_pre _ _ _ (by decide))
      · exact absurd (hid.symm.trans h) (append_ne_of_no_pre _ _ _ (by decide))
      · exact absurd (hid.symm.trans h) (append_ne_of_no_pre _ _ _ (by decide))
    · intro hna
      obtain ⟨i, hi, hid, hsev⟩ := checkOpenPorts_mem_of hss hport hna
      exact ⟨i, mem_check_security_of_ports hi, hid, hsev⟩
  · intro hall i hi t hid
    rcases check_security_id_forms hi with
      h | h | ⟨q, hq, hqna, hqid, -⟩ | ⟨n, hn, hnid⟩ | ⟨f, hf, hfid⟩ | ⟨h, -⟩ | h | h
    · exact absurd (hid.symm.trans h) (append_ne_of_no_pre _ _ _ (by decide))
    · exact absurd (hid.symm.trans h) (append_ne_of_no_pre _ _ _ (by decide))
    · exact hqna (hall q hq)
    · exact absurd (hid.symm.trans hnid) (append_ne_of_no_pre _ _ _ rfl)
    · exact absurd (hid.symm.trans hfid) (append_ne_of_no_pre _ _ _ rfl)
    · exact absurd (hid.symm.trans h) (append_ne_of_no_pre _ _ _ (by decide))
    · exact absurd (hid.symm.trans h) (append_ne_of_no_pre _ _ _ (by decide))
    · exact absurd (hid.symm.trans h) (append_ne_of_no_pre _ _ _ (by decide))

/-- Security observation with an allowed port and the unexpected 1337. -/
def portSec : SecState := { benignSec with listenPorts := ["22", "1337"] }

/-- Witness for C7: port 1337 is observed, outside the allow-list, and the
flagging equivalence holds for it. -/
theorem unexpected_open_port_iff_witness :
    "1337" ∈ portSec.listenPorts ∧
      ((∃ i ∈ check_security portSec,
          i.id = "unexpected_open_port_" ++ "1337" ∧ i.severity = "medium") ↔
        portNum "1337" ∉ allowedPorts) :=
  ⟨by decide, (unexpected_open_port_iff portSec rfl).1 "1337" (by decide)⟩

/-- C8: when the sshd configuration contains the root-login-enabled
directive, every `check_security` cycle carries the
`ssh_root_login_enabled` issue exactly once, and it is high severity. -/
theorem ssh_root_login_flagged_once (s : SecState) (cfg : String)
    (hcfg : s.sshConfig = some cfg)
    (hroot : pyContains "PermitRootLogin yes" cfg = true) :
    (check_security s).countP (fun i => i.id == "ssh_root_login_enabled") = 1 ∧
      ∀ i ∈ check_security s, i.id = "ssh_root_login_enabled" → i.severity = "high" := by
  constructor
  · unfold check_security
    rw [List.countP_append, List.countP_append, List.countP_append, List.countP_append,
      List.countP_append, List.countP_append]
    rw [countP_id_eq_zero (fun i hi => by rw [mem_checkFailedLogins hi]; decide),
      countP_id_eq_zero (fun i hi => by rw [mem_checkSudoUsage hi]; decide),
      countP_id_eq_zero (fun i hi => by
        obtain ⟨q, -, -, hid, -⟩ := mem_checkOpenPorts hi
        rw [hid]
        exact append_ne_of_no_pre _ _ _ (by decide)),
      countP_id_eq_zero (fun i hi => by
        obtain ⟨n, -, hid, -⟩ := mem_checkSuspiciousProcesses hi
        rw [hid]
        exact append_ne_of_no_pre _ _ _ (by decide)),
      countP_id_eq_zero (fun i hi => by
        obtain ⟨f, -, hid, -⟩ := mem_checkModifiedSystemFiles hi
        rw [hid]
        exact append_ne_of_no_pre _ _ _ (by decide)),
      countP_id_eq_zero (l := checkFirewallStatus s)
        (fun i hi => by rw [mem_checkFirewallStatus hi]; decide)]
    have hssh : (checkSshConfig s).countP (fun i => i.id == "ssh_root_login_enabled") = 1 := by
      unfold checkSshConfig
      rw [hcfg]
      show (((if pyContains "PermitRootLogin yes" cfg = true then _ else []) ++ _).countP _) = 1
      rw [if_pos hroot, List.countP_append]
      have hone : List.countP (fun i => i.id == "ssh_root_login_enabled")
          [({ id := "ssh_root_login_enabled", severity := "high",
              description := "SSH root login is enabled", component := "ssh",
              data := [("config_file", .str "/etc/ssh/sshd_config")] } : Issue)] = 1 := by
        simp [List.countP_cons]
      rw [hone]
      have hzero : List.countP (fun i => i.id == "ssh_root_login_enabled")
          (if pyContains "PasswordAuthentication yes" cfg = true then
            [({ id := "ssh_password_auth_enabled", severity := "medium",
                description := "SSH password authentication is enabled", component := "ssh",
                data := [("config_file", .str "/etc/ssh/sshd_config")] } : Issue)]
          else []) = 0 := by
        split
        · simp
        · simp
      rw [hzero]
    rw [hssh]
  · intro i hi hid
    rcases check_security_id_forms hi with
      h | h | ⟨q, hq, hqna, hqid, -⟩ | ⟨n, hn, hnid⟩ | ⟨f, hf, hfid⟩ | ⟨h, hsev⟩ | h | h
    · exact absurd (h.symm.trans hid) (by decide)
    · exact absurd (h.symm.trans hid) (by decide)
    · exact absurd (hqid.symm.trans hid) (append_ne_of_no_pre _ _ _ (by decide))
    · exact absurd (hnid.symm.trans hid) (append_ne_of_no_pre _ _ _ (by decide))
    · exact absurd (hfid.symm.trans hid) (append_ne_of_no_pre _ _ _ (by decide))
    · exact hsev
    · exact absurd (h.symm.trans hid) (by decide)
    · exact absurd (h.symm.trans hid) (by decide)

/-- Security observation whose sshd configuration enables root login. -/
def rootSec : SecState :=
  { benignSec with sshConfig := some "PermitRootLogin yes\nPasswordAuthentication no\n" }

/-- Witness for C8 at a concrete root-login-enabled configuration. -/
theorem ssh_root_login_flagged_once_witness :
    (check_security rootSec).countP (fun i => i.id == "ssh_root_login_enabled") = 1 ∧
      ∀ i ∈ check_security rootSec, i.id = "ssh_root_login_enabled" → i.severity = "high" :=
  ssh_root_login_flagged_once rootSec "PermitRootLogin yes\nPasswordAuthentication no\n" rfl
    (by decide)

/-- C9: when at least one zombie process exists, `check_health` returns
exactly one `zombie_processes` issue, medium only when the zombie count
strictly exceeds 10 (so exactly 10 is low); with no zombies the issue is
absent. -/
theorem zombie_processes_spec (s : HealthState) (hproc : s.procOk = true) :
    (zombieList s ≠ [] →
      (check_health s).countP (fun i => i.id == "zombie_processes") = 1 ∧
      ∀ i ∈ check_health s, i.id = "zombie_processes" →
        i.severity = (if (zombieList s).length > 10 then "medium" else "low")) ∧
    (zombieList s = [] → ∀ i ∈ check_health s, i.id ≠ "zombie_processes") := by
  constructor
  · intro hne
    constructor
    · unfold check_health
      rw [List.countP_append, List.countP_append, List.countP_append, List.countP_append,
        List.countP_append, List.countP_append]
      rw [countP_id_eq_zero (l := checkDiskUsage s) (fun i hi => by
          obtain ⟨p, -, hid, -⟩ := mem_checkDiskUsage hi
          rw [hid]
          exact append_ne_of_no_pre _ _ _ (by decide)),
        countP_id_eq_zero (l := checkMemoryUsage s)
          (fun i hi => by rw [(mem_checkMemoryUsage hi).1]; decide),
        countP_id_eq_zero (l := checkCpuLoad s) (fun i hi => by
          rcases mem_checkCpuLoad hi with ⟨hid, -⟩ | ⟨hid, -⟩ <;> rw [hid] <;> decide),
        countP_id_eq_zero (l := checkInodeUsage s) (fun i hi => by
          obtain ⟨m, hid⟩ := mem_checkInodeUsage hi
          rw [hid]
          exact append_ne_of_no_pre _ _ _ (by decide)),
        countP_id_eq_zero (l := checkSwapUsage s)
          (fun i hi => by rw [mem_checkSwapUsage hi]; decide),
        countP_id_eq_zero (l := checkSystemUpdates s)
          (fun i hi => by rw [mem_checkSystemUpdates hi]; decide)]
      have hzom : (checkZombieProcesses s).countP (fun i => i.id == "zombie_processes") = 1 := by
        unfold checkZombieProcesses
        rw [hproc, if_pos rfl, if_pos hne]
        simp [List.countP_cons]
      rw [hzom]
    · intro i hi hid
      rcases check_health_id_forms hi with
        ⟨p, -, hpid, -⟩ | ⟨h, -⟩ | h | h | ⟨-, hsev⟩ | ⟨m, h⟩ | h | h
      · exact absurd (hpid.symm.trans hid) (append_ne_of_no_pre _ _ _ (by decide))
      · exact absurd (h.symm.trans hid) (by decide)
      · exact absurd (h.symm.trans hid) (by decide)
      · exact absurd (h.symm.trans hid) (by decide)
      · exact hsev
      · exact absurd (h.symm.trans hid) (append_ne_of_no_pre _ _ _ (by decide))
      · exact absurd (h.symm.trans hid) (by decide)
      · exact absurd (h.symm.trans hid) (by decide)
  · intro hempty i hi hid
    unfold check_health at hi
    simp only [List.mem_append] at hi
    rcases hi with ((((((hi | hi) | hi) | hi) | hi) | hi) | hi)
    · obtain ⟨p, -, hpid, -⟩ := mem_checkDiskUsage hi
      exact absurd (hpid.symm.trans hid) (append_ne_of_no_pre _ _ _ (by decide))
    · exact absurd ((mem_checkMemoryUsage hi).1.symm.trans hid) (by decide)
    · rcases mem_checkCpuLoad hi with ⟨h, -⟩ | ⟨h, -⟩ <;>
        exact absurd (h.symm.trans hid) (by decide)
    · unfold checkZombieProcesses at hi
      rw [hproc, if_pos rfl, if_neg (fun hne => hne hempty)] at hi
      simp at hi
    · obtain ⟨m, h⟩ := mem_checkInodeUsage hi
      exact absurd (h.symm.trans hid) (append_ne_of_no_pre _ _ _ (by decide))
    · exact absurd ((mem_checkSwapUsage hi).symm.trans hid) (by decide)
    · exact absurd ((mem_checkSystemUpdates hi).symm.trans hid) (by decide)

/-- Health observation containing a single zombie process entry. -/
def zombieHealth : HealthState :=
  { benignHealth with procs := [{ pid := 4321, name := "defunct", status := "zombie", ok := true }] }

/-- Witness for C9 at a concrete one-zombie observation. -/
theorem zombie_processes_spec_witness :
    zombieHealth.procOk = true ∧ zombieList zombieHealth ≠ [] ∧
      ((check_health zombieHealth).countP (fun i => i.id == "zombie_processes") = 1 ∧
        ∀ i ∈ check_health zombieHealth, i.id = "zombie_processes" →
          i.severity = (if (zombieList zombieHealth).length > 10 then "medium" else "low")) :=
  ⟨rfl, by decide, (zombie_processes_spec zombieHealth rfl).1 (by decide)⟩

/-- Replacing `/` by `_` is injective across characters that are not
themselves underscores. -/
theorem encSlash_inj {a b : Char} (ha : a ≠ '_') (hb : b ≠ '_')
    (h : (if a = '/' then '_' else a) = (if b = '/' then '_' else b)) : a = b := by
  by_cases hA : a = '/' <;> by_cases hB : b = '/'
  · rw [hA, hB]
  · rw [if_pos hA, if_neg hB] at h
    exact absurd h.symm hb
  · rw [if_neg hA, if_pos hB] at h
    exact absurd h ha
  · rwa [if_neg hA, if_neg hB] at h

/-- The repair handler's mount derivation inverts the check engine's id
derivation for mounts that are absolute, underscore-free and do not
contain `disk/usage/` as a substring. -/
theorem repairMountOf_diskIdOf (m : String) (h1 : pyStartsWith m "/" = true)
    (h2 : '_' ∉ m.data) (h3 : containsSub "disk/usage/".data m.data = false) :
    repairMountOf (diskIdOf m) = m := by
  have hA : replaceAll "disk_usage_".data [] (diskIdOf m).data =
      m.data.map (fun c => if c = '/' then '_' else c) := by
    have e1 : (diskIdOf m).data =
        "disk_usage_".data ++ m.data.map (fun c => if c = '/' then '_' else c) := rfl
    rw [e1, replaceAll_strip _ _ (by decide)]
    have hpatnu : ∀ a ∈ "disk/usage/".data, a ≠ '_' := by decide
    have hinj : ∀ a ∈ "disk/usage/".data, ∀ b ∈ m.data,
        (if a = '/' then '_' else a) = (if b = '/' then '_' else b) → a = b :=
      fun a ha b hb hf => encSlash_inj (hpatnu a ha) (fun hb' => h2 (hb' ▸ hb)) hf
    apply replaceAll_of_not_contains
    have e2 : "disk_usage_".data =
        "disk/usage/".data.map (fun c => if c = '/' then '_' else c) := by decide
    rw [e2, containsSub_map_eq _ _ _ hinj]
    exact h3
  have hm2 : replaceChar '_' '/'
      (String.mk (replaceAll "disk_usage_".data [] (diskIdOf m).data)) = m := by
    rw [hA]
    exact str_ext (enc_dec_id m.data h2)
  simp only [repairMountOf]
  rw [hm2, h1, if_pos rfl]

/-- A data partition mounted at `/my_data`, measured 96% full. -/
def myDataPartition : Partition :=
  { mountpoint := "/my_data", fstype := "ext4", percent := 96,
    total := 107374182400, free := 4294967296 }

/-- Health observation whose only partition is `/my_data` at 96%. -/
def myDataHealth : HealthState := { benignHealth with partitions := [myDataPartition] }

/-- C6 counterexample: the flagged mount `/my_data` produces the id
`disk_usage__my_data`, but the repair handler turns every underscore into
a slash and re-derives `/my/data`, a different mount than the one that
was detected. -/
theorem disk_repair_roundtrip_counterexample :
    (∃ i ∈ check_health myDataHealth, i.id = diskIdOf "/my_data") ∧
      repairMountOf (diskIdOf "/my_data") ≠ "/my_data" ∧
      repairMountOf (diskIdOf "/my_data") = "/my/data" := by
  refine ⟨?_, by decide, by decide⟩
  obtain ⟨i, hi, hid, -⟩ := checkDiskUsage_mem_of (s := myDataHealth) (p := myDataPartition)
    (List.mem_singleton.mpr rfl) rfl (by decide) (by decide) (by norm_num [myDataPartition])
  exact ⟨i, mem_check_health_of_disk hi, hid⟩

/-- C6 amended: for every flagged mount point that is absolute, contains
no underscore and does not contain `disk/usage/` as a substring, the disk
repair handler re-derives exactly that mount from the generated id and
reports it in its success message; a mount containing an underscore (or an
embedded `disk/usage/`) is re-derived incorrectly. -/
theorem disk_repair_roundtrip (s : HealthState) (p : Partition) (env : RepairEnv)
    (hp : p ∈ s.partitions) (hdisk : s.diskOk = true) (hfs : p.fstype ≠ "")
    (hps : isPseudoMount p.mountpoint = false) (hpct : p.percent ≥ 90)
    (hroot : pyStartsWith p.mountpoint "/" = true)
    (hnu : '_' ∉ p.mountpoint.data)
    (hnd : containsSub "disk/usage/".data p.mountpoint.data = false)
    (hok : env.diskRepairOk = true) :
    (∃ i ∈ check_health s, i.id = diskIdOf p.mountpoint) ∧
    repairMountOf (diskIdOf p.mountpoint) = p.mountpoint ∧
    repair_issue env (diskIdOf p.mountpoint) =
      { id := diskIdOf p.mountpoint, success := true,
        message := "Cleaned up disk space on " ++ p.mountpoint } := by
  have hrt := repairMountOf_diskIdOf p.mountpoint hroot hnu hnd
  refine ⟨?_, hrt, ?_⟩
  · obtain ⟨i, hi, hid, -⟩ := checkDiskUsage_mem_of hp hdisk hfs hps hpct
    exact ⟨i, mem_check_health_of_disk hi, hid⟩
  · unfold repair_issue
    rw [if_pos (show pyStartsWith (diskIdOf p.mountpoint) "disk_usage_" = true from
      isPrefixOf_self_append _ _)]
    simp only [repairDiskUsage]
    rw [hok, if_pos rfl, hrt]

/-- Witness for the amended C6 at the `/data` observation. -/
theorem disk_repair_roundtrip_witness :
    (∃ i ∈ check_health dataHealth, i.id = diskIdOf "/data") ∧
      repairMountOf (diskIdOf "/data") = "/data" ∧
      repair_issue defaultEnv (diskIdOf "/data") =
        { id := diskIdOf "/data", success := true,
          message := "Cleaned up disk space on " ++ "/data" } :=
  disk_repair_roundtrip dataHealth dataPartition defaultEnv (List.mem_singleton.mpr rfl) rfl
    (by decide) (by decide) (by norm_num [dataPartition]) (by decide) (by decide) (by decide) rfl

theorem mem_check_security_of_modified {s : SecState} {i : Issue}
    (hi : i ∈ checkModifiedSystemFiles s) : i ∈ check_security s := by
  unfold check_security
  simp [List.mem_append, hi]

theorem flatMap_congr_of_mem {α β : Type} {l : List α} {f g : α → List β}
    (h : ∀ a ∈ l, f a = g a) : l.flatMap f = l.flatMap g := by
  induction l with
  | nil => rfl
  | cons a as ih =>
      simp only [List.flatMap_cons]
      rw [h a (List.mem_cons_self _ _), ih fun x hx => h x (List.mem_cons_of_mem _ hx)]

/-- Moving only the clock does not change the modified-file sub-check's
output for a file as long as the file's age stays on the same side of the
24-hour boundary. -/
theorem modifiedFileIssues_now_congr (ss : SecState) (t2 : ℚ) (f : String)
    (hiff : ss.fsExists f = true →
      ((ss.now - ss.fsMtime f < 86400) ↔ (t2 - ss.fsMtime f < 86400))) :
    modifiedFileIssues { ss with now := t2 } f = modifiedFileIssues ss f := by
  unfold modifiedFileIssues
  dsimp only
  by_cases hex : ss.fsExists f = true
  · rw [if_pos hex, if_pos hex]
    by_cases h1 : ss.now - ss.fsMtime f < 86400
    · rw [if_pos ((hiff hex).mp h1), if_pos h1]
    · rw [if_neg (fun hc => h1 ((hiff hex).mpr hc)), if_neg h1]
  · rw [if_neg hex, if_neg hex]

/-- Quiet security state except that `/bin/bash` exists with mtime 0 and
the clock reads 1000 (the file looks freshly modified). -/
def staleSec : SecState :=
  { benignSec with fsExists := fun f => f == "/bin/bash", fsMtime := fun _ => 0, now := 1000 }

/-- The same observation read again when the clock reads 200000. -/
def staleSecLater : SecState := { staleSec with now := 200000 }

/-- The issue the modified-file sub-check produces for `/bin/bash` in
`staleSec`. -/
def bashModifiedIssue : Issue :=
  { id := "modified_system_file_bash", severity := "high",
    description := "Recently modified system file: /bin/bash",
    component := "filesystem",
    data := [("file_path", .str "/bin/bash"), ("modified_time", .num 0)] }

/-- C10 counterexample: two `check_security` invocations over an unchanged
file system (same existence and mtimes, same ports, logs and
configuration) but at different clock readings produce different id sets —
`modified_system_file_bash` is present at time 1000 and absent at time
200000, because the sub-check compares the current time against each
mtime. -/
theorem check_shape_time_dependence_counterexample :
    staleSecLater = { staleSec with now := 200000 } ∧
      "modified_system_file_bash" ∈ issueIds (check_security staleSec) ∧
      "modified_system_file_bash" ∉ issueIds (check_security staleSecLater) := by
  refine ⟨rfl, ?_, ?_⟩
  · refine List.mem_map.mpr ⟨bashModifiedIssue, mem_check_security_of_modified ?_, rfl⟩
    unfold checkModifiedSystemFiles
    refine List.mem_flatMap.mpr ⟨"/bin/bash", by decide, ?_⟩
    unfold modifiedFileIssues
    rw [if_pos (by decide), if_pos (by norm_num [staleSec, benignSec])]
    exact List.mem_singleton.mpr rfl
  · intro hmem
    have hb : modifiedFileIssues staleSecLater "/bin/bash" = [] := by
      unfold modifiedFileIssues
      rw [if_pos (by decide), if_neg (by norm_num [staleSecLater, staleSec, benignSec])]
    have ho : ∀ f : String, staleSecLater.fsExists f = false →
        modifiedFileIssues staleSecLater f = [] := by
      intro f hf
      unfold modifiedFileIssues
      rw [if_neg (by simp [hf])]
    have hmod : checkModifiedSystemFiles staleSecLater = [] := by
      unfold checkModifiedSystemFiles
      simp only [criticalFiles, List.flatMap_cons, List.flatMap_nil, hb,
        ho "/bin/sh" (by decide), ho "/bin/ls" (by decide), ho "/bin/login" (by decide),
        ho "/bin/su" (by decide), ho "/usr/bin/sudo" (by decide),
        ho "/etc/passwd" (by decide), ho "/etc/shadow" (by decide),
        ho "/etc/ssh/sshd_config" (by decide), List.append_nil, List.nil_append]
    have hsec : check_security staleSecLater = [] := by
      unfold check_security
      rw [hmod]
      rfl
    rw [hsec] at hmem
    simp [issueIds] at hmem

/-- C10 amended: both check cycles are pure functions of the observed
state: `check_health`'s id sequence is unchanged when only data-carried
measurements (such as the memory byte totals) vary, and `check_security`'s
output is unchanged when only the clock reading varies, provided no
critical file's age crosses the 24-hour boundary between the two readings
(the modified-system-file sub-check is the one place where an id's
presence depends on the invocation time and not only on the observed
state). -/
theorem check_cycles_deterministic_in_shape :
    (∀ (hs : HealthState) (t1 t2 : ℚ),
      issueIds (check_health { hs with memTotal := t1 }) =
        issueIds (check_health { hs with memTotal := t2 })) ∧
    (∀ (ss : SecState) (t2 : ℚ),
      (∀ f ∈ criticalFiles, ss.fsExists f = true →
        ((ss.now - ss.fsMtime f < 86400) ↔ (t2 - ss.fsMtime f < 86400))) →
      check_security { ss with now := t2 } = check_security ss) := by
  constructor
  · intro hs t1 t2
    have hm : List.map Issue.id (checkMemoryUsage { hs with memTotal := t1 }) =
        List.map Issue.id (checkMemoryUsage { hs with memTotal := t2 }) := by
      unfold checkMemoryUsage
      dsimp only
      split
      · split
        · rfl
        · rfl
      · rfl
    unfold check_health
    simp only [issueIds, List.map_append]
    rw [hm]
    rfl
  · intro ss t2 hiff
    have hm : checkModifiedSystemFiles { ss with now := t2 } = checkModifiedSystemFiles ss := by
      unfold checkModifiedSystemFiles
      exact flatMap_congr_of_mem fun f hf => modifiedFileIssues_now_congr ss t2 f (hiff f hf)
    unfold check_security
    rw [hm]
    rfl

/-- Witness for the amended C10 at concrete states: memory totals 1 and 2,
and the `staleSec` observation re-read one thousand seconds later (still
inside the 24-hour window). -/
theorem check_cycles_deterministic_in_shape_witness :
    issueIds (check_health { benignHealth with memTotal := 1 }) =
      issueIds (check_health { benignHealth with memTotal := 2 }) ∧
    check_security { staleSec with now := 2000 } = check_security staleSec :=
  ⟨check_cycles_deterministic_in_shape.1 benignHealth 1 2,
   check_cycles_deterministic_in_shape.2 staleSec 2000 (by
     intro f hf hex
     fin_cases hf <;> first
       | exact absurd hex (by decide)
       | norm_num [staleSec, benignSec])⟩

end Up

-- Sanity examples exercising kernel reduction of the string helpers.
example : Up.pyContains "PermitRootLogin yes" "x\nPermitRootLogin yes\n" = true := by decide
example : Up.replaceChar '/' '_' "/data" = "_data" := by decide
example : ("disk_usage_" ++ Up.replaceChar '/' '_' "/data") = "disk_usage__data" := rfl
example : Up.basename "/etc/ssh/sshd_config" = "sshd_config" := by decide
example : Up.pyWords "  a  b\tc " = ["a", "b", "c"] := by decide
example : Up.pyStrip " ab \n" = "ab" := by decide
example : Up.rstripPercentSign "93%" = "93" := by decide
example : Up.replaceAll "disk_usage_".data [] "disk_usage__my_data".data = "_my_data".data := by decide
example : Up.pyStartsWith "disk_usage_x" "disk_usage_" = true := by decide
example : ((3 : ℚ) > 1.5 * 2) = False := by norm_num
